import Mathlib

/-!
Shallow embedding of the manager reconciliation controller
(`pkg/controller/manager/manager_controller.go`).

The controller's `Reconcile` method is a linear cascade of dependency gates,
each of which either stops the pass (setting a Degraded status and possibly
returning an error and/or a requeue delay) or resolves a value used by later
gates.  Every call the controller makes to the surrounding framework
(`utils.*`, the client, the status manager, the render package) is external
to the file under `src/`; each such call's result for one pass is therefore a
field of `ClusterState`, and the Lean functions below transcribe the decision
logic of `Reconcile` over those results, phase by phase, in source order.

A pass's externally observable behaviour is an `Outcome`: the sequence of
status-manager events it emitted, the components it handed to the apply
engine (in order), whether the primary resource's status subresource was
written (and with what state), the requested requeue delay in seconds, and
the error returned to the scheduler.
-/

/-- One event emitted on the status manager (`r.status`) during a pass. -/
inductive StatusEvent where
  | onCRNotFound
  | onCRFound
  | setDegraded (reason message : String)
  | clearDegraded
deriving DecidableEq, Repr

/-- Result of fetching an external resource: the client distinguishes
not-found errors (`errors.IsNotFound`) from other errors. -/
inductive GetResult (α : Type) where
  | notFound (msg : String)
  | err (msg : String)
  | ok (v : α)
deriving DecidableEq, Repr

/-- X.509 certificate data relevant to the controller: SAN list, validity
window (seconds since an arbitrary epoch), and provenance. -/
structure Cert where
  sans : List String
  notBefore : Nat
  notAfter : Nat
  selfSigned : Bool
  operatorIssued : Bool
deriving DecidableEq, Repr

/-- A Kubernetes secret holding certificate material. -/
structure Secret where
  name : String
  ns : String
  cert : Cert
deriving DecidableEq, Repr

/-- The auth section of the Manager CR spec (`operatorv1.Auth`). -/
structure ManagerAuth where
  authType : String
deriving DecidableEq, Repr

/-- The Manager custom resource (`operatorv1.Manager`); only the fields the
controller reads. -/
structure ManagerCR where
  auth : Option ManagerAuth
deriving DecidableEq, Repr

/-- The LicenseKey record; `utils.IsFeatureActive` consults its feature set. -/
structure License where
  features : List String
deriving DecidableEq, Repr

/-- The Installation resource fields the controller reads. -/
structure Installation where
  certificateManagement : Option String
  controlPlaneReplicas : Option Int
deriving DecidableEq, Repr

/-- The Compliance resource; the controller reads its status state. -/
structure Compliance where
  statusState : String
deriving DecidableEq, Repr

/-- The Authentication resource; the controller reads its status state. -/
structure Authentication where
  statusState : String
deriving DecidableEq, Repr

/-- The hub topology resource (`operatorv1.ManagementCluster`). -/
structure ManagementCluster where
  name : String
deriving DecidableEq, Repr

/-- The spoke topology resource (`operatorv1.ManagementClusterConnection`). -/
structure ManagementClusterConnection where
  name : String
deriving DecidableEq, Repr

/-- Opaque per-request validator configuration (external package). -/
abbrev KeyValidatorConfig := String

/-- Opaque elasticsearch cluster configuration (external package). -/
abbrev ESClusterConfig := String

-- Constants of the external packages (`render`, `common`, `operatorv1`);
-- their exact string values do not matter to any claim, only their identity.

def AuthTypeToken : String := "Token"

def TigeraStatusReady : String := "Ready"

def ProviderOpenShift : String := "OpenShift"

def ComplianceFeature : String := "compliance"

def ManagerTLSSecretName : String := "manager-tls"

def ManagerNamespace : String := "tigera-manager"

def ManagerServiceName : String := "tigera-manager"

def OperatorNamespace : String := "tigera-operator"

def ManagerInternalTLSSecretName : String := "internal-manager-tls"

def ComplianceServerCertSecret : String := "tigera-compliance-server-tls"

def PacketCaptureCertSecret : String := "tigera-packetcapture-server-tls"

def PrometheusTLSSecretName : String := "calico-node-prometheus-tls"

/-- 825 days * 24 hours, in seconds (`certDur := 825 * 24 * time.Hour`). -/
def managerCertDur : Nat := 825 * 24 * 3600

/-- The error text `GetManager` returns for a non-Token auth type
(manager_controller.go lines 197-198).  It is a fixed string: it does not
embed the unsupported value itself. -/
def authErrMsg : String :=
  "auth types other than " ++ "'" ++ "Token" ++ "'" ++
  " can no longer be configured using the Manager CR, please use the Authentication CR instead"

/-- The error text for a user-provided certificate under certificate
management (line 303). -/
def userProvidedMsg : String :=
  "user provided secret " ++ ManagerNamespace ++ "/" ++ ManagerTLSSecretName ++
  " is not supported when certificate management is enabled"

/-- The hub/spoke mutual-exclusivity error text (line 408). -/
def conflictMsg : String :=
  "having both a ManagementCluster and a ManagementClusterConnection is not supported"

/-- Degraded reason when `EnsureCertificateSecret` fails (line 291). -/
def ensureCertDegradedReason : String :=
  "Error ensuring manager TLS certificate \"" ++ ManagerTLSSecretName ++
  "\" exists and has valid DNS names"

/-- `utils.IsFeatureActive(license, feature)`: whether the license record
activates the given feature. -/
def IsFeatureActive (l : License) (f : String) : Bool :=
  l.features.contains f

/-- The configuration snapshot handed to the rendering collaborator
(`render.ManagerConfiguration`, lines 514-532). -/
structure ManagerConfiguration where
  keyValidatorConfig : Option KeyValidatorConfig
  esSecrets : List Secret
  kibanaSecrets : List Secret
  complianceServerCertSecret : Option Secret
  packetCaptureServerCertSecret : Option Secret
  prometheusCertSecret : Option Secret
  esClusterConfig : ESClusterConfig
  tlsKeyPair : Option Secret
  pullSecrets : List Secret
  openshift : Bool
  installation : Installation
  managementCluster : Option ManagementCluster
  tunnelSecret : Option Secret
  internalTrafficSecret : Option Secret
  clusterDomain : String
  esLicenseType : String
  replicas : Option Int
deriving DecidableEq, Repr

/-- A component handed to the apply engine: either the TLS passthrough
(`render.NewPassthrough(tlsSecret)`, line 500) or the main rendered
component (`render.Manager(managerCfg)`, line 535). -/
inductive Component where
  | passthrough (secret : Secret)
  | rendered (cfg : ManagerConfiguration)
deriving DecidableEq, Repr

/-- The controller struct fields that parameterize a pass
(`ReconcileManager`). -/
structure ReconcileManager where
  provider : String
  clusterDomain : String

/-- The results of every external call one reconciliation pass can make, in
source order.  Each field is the outcome the underlying store / helper would
produce during this pass. -/
structure ClusterState where
  getManager : GetResult ManagerCR
  apiServerReady : Bool
  licenseAPIReady : Bool
  fetchLicenseKey : GetResult License
  getInstallation : GetResult (String × Installation)
  validateManagerCertPair : Except String (Option Secret)
  ensureCertErr : Option String
  now : Nat
  isCertOperatorIssuedErr : Option String
  getCompliance : GetResult Compliance
  validateComplianceCertPair : Except String (Option Secret)
  getPrometheusNamespace : GetResult Unit
  getPullSecrets : Except String (List Secret)
  getElasticsearchClusterConfig : GetResult ESClusterConfig
  elasticsearchSecrets : GetResult (List Secret)
  getKibanaPublicCertSecret : GetResult Secret
  getManagementCluster : Except String (Option ManagementCluster)
  getManagementClusterConnection : Except String (Option ManagementClusterConnection)
  getTunnelSecret : GetResult Secret
  getInternalTrafficSecret : GetResult Secret
  getAuthentication : GetResult Authentication
  getKeyValidatorConfig : Except String (Option KeyValidatorConfig)
  getElasticLicenseType : Except String String
  validatePacketCaptureCertPair : Except String (Option Secret)
  validatePrometheusCertPair : Except String (Option Secret)
  renderManagerErr : Option String
  applyImageSetErr : Option String
  applyErr : Component → Option String
  statusIsAvailable : Bool
  statusUpdateErr : Option String

/-- Externally observable behaviour of one pass:
status events in order, components handed to the apply engine in order,
the state written to the primary resource's status subresource (if any), the
requested requeue delay in seconds (0 = none), and the returned error. -/
structure Outcome where
  events : List StatusEvent
  applied : List Component
  statusWrite : Option String
  requeueAfterSeconds : Nat
  error : Option String
deriving DecidableEq, Repr

/-- An early stop of the pass before any apply, after `OnCRFound`: sets the
given Degraded reason/message, returns the given requeue delay and error. -/
def degradedStop (reason message : String) (rq : Nat) (e : Option String) : Outcome :=
  { events := [StatusEvent.onCRFound, StatusEvent.setDegraded reason message]
    applied := []
    statusWrite := none
    requeueAfterSeconds := rq
    error := e }

/-- `GetManager` (lines 189-201): fetch the single Manager instance and
reject a present auth config whose type is not `Token`. -/
def GetManager (s : ClusterState) : GetResult ManagerCR :=
  match s.getManager with
  | .notFound m => .notFound m
  | .err m => .err m
  | .ok inst =>
    match inst.auth with
    | some a => if a.authType = AuthTypeToken then .ok inst else .err authErrMsg
    | none => .ok inst

/-- Modelled from the spec: `dns.GetServiceDNSNames` is not under `src/`.
Per the spec it produces the service DNS names built from the service name,
namespace, and cluster-domain variants. -/
def getServiceDNSNames (service ns clusterDomain : String) : List String :=
  [service,
   service ++ "." ++ ns,
   service ++ "." ++ ns ++ ".svc",
   service ++ "." ++ ns ++ ".svc." ++ clusterDomain]

/-- The DNS names the controller requests for the manager TLS certificate
(lines 283-284): the service DNS names plus the literal `localhost`. -/
def managerSvcDNSNames (clusterDomain : String) : List String :=
  getServiceDNSNames ManagerServiceName ManagerNamespace clusterDomain ++ ["localhost"]

/-- Modelled from the spec: `utils.EnsureCertificateSecret` is not under
`src/`.  Per the spec (section 4.2): if no valid secret exists it
synthesizes a self-signed certificate whose Subject-Alternative-Name list is
the given DNS names and whose validity window is the given duration from
synthesis time; if a valid operator-managed secret exists it is kept unless
its SAN list is stale relative to the requested names, in which case it is
regenerated; a secret not issued by the operator is passed through and
reported as not operator managed.  Returns the secret and whether it is
operator managed. -/
def ensureCertificateSecret (existing : Option Secret) (certDur : Nat)
    (dnsNames : List String) (now : Nat) : Secret × Bool :=
  let fresh : Secret :=
    { name := ManagerTLSSecretName
      ns := OperatorNamespace
      cert :=
        { sans := dnsNames
          notBefore := now
          notAfter := now + certDur
          selfSigned := true
          operatorIssued := true } }
  match existing with
  | none => (fresh, true)
  | some sec =>
    if sec.cert.operatorIssued then
      if dnsNames.all (fun d => sec.cert.sans.contains d) then (sec, true)
      else (fresh, true)
    else (sec, false)

/-- The desired object set (lines 498-501 and 548): the TLS passthrough
component when the TLS secret exists and is operator managed, followed by
the main rendered component. -/
def desiredComponents (tlsSecret : Option Secret) (operatorManaged : Bool)
    (cfg : ManagerConfiguration) : List Component :=
  (match tlsSecret, operatorManaged with
   | some ts, true => [Component.passthrough ts]
   | _, _ => []) ++ [Component.rendered cfg]

/-- The apply loop (lines 549-554): apply components in list order, stopping
at the first failure.  Returns the components handed to the apply engine
(the failing one included) and the first error. -/
def applyComponents (f : Component → Option String) :
    List Component → List Component × Option String
  | [] => ([], none)
  | c :: rest =>
    match f c with
    | some m => ([c], some m)
    | none =>
      let p := applyComponents f rest
      (c :: p.1, p.2)

/-- Replica forcing and configuration assembly (lines 507-532): replicas is
forced to 1 for management (hub) or managed (spoke) clusters, otherwise it is
the installation's configured control-plane replica count. -/
def buildManagerCfg (r : ReconcileManager) (installation : Installation)
    (tlsSecret : Option Secret) (complianceServerCertSecret : Option Secret)
    (pullSecrets : List Secret) (esClusterConfig : ESClusterConfig)
    (esSecrets : List Secret) (kibanaSecret : Secret)
    (managementCluster : Option ManagementCluster)
    (managementClusterConnection : Option ManagementClusterConnection)
    (tunnelSecret internalTrafficSecret : Option Secret)
    (keyValidatorConfig : Option KeyValidatorConfig) (elasticLicenseType : String)
    (packetCaptureServerCertSecret prometheusCertSecret : Option Secret) : ManagerConfiguration :=
  { keyValidatorConfig := keyValidatorConfig
    esSecrets := esSecrets
    kibanaSecrets := [kibanaSecret]
    complianceServerCertSecret := complianceServerCertSecret
    packetCaptureServerCertSecret := packetCaptureServerCertSecret
    prometheusCertSecret := prometheusCertSecret
    esClusterConfig := esClusterConfig
    tlsKeyPair := tlsSecret
    pullSecrets := pullSecrets
    openshift := r.provider = ProviderOpenShift
    installation := installation
    managementCluster := managementCluster
    tunnelSecret := tunnelSecret
    internalTrafficSecret := internalTrafficSecret
    clusterDomain := r.clusterDomain
    esLicenseType := elasticLicenseType
    replicas :=
      if managementCluster.isSome || managementClusterConnection.isSome then some 1
      else installation.controlPlaneReplicas }

/-- The apply loop and the status write (lines 549-565): apply the desired
components in order; on the first failure set Degraded and return the error;
on success clear Degraded and, only if the status aggregator reports the
controller available, write `Ready` to the status subresource. -/
def applyAndStatus (s : ClusterState) (comps : List Component) : Outcome :=
  let ap := applyComponents s.applyErr comps
  match ap.2 with
  | some m =>
    { events := [StatusEvent.onCRFound, StatusEvent.setDegraded "Error creating / updating resource" m]
      applied := ap.1
      statusWrite := none
      requeueAfterSeconds := 0
      error := some m }
  | none =>
    if s.statusIsAvailable then
      { events := [StatusEvent.onCRFound, StatusEvent.clearDegraded]
        applied := ap.1
        statusWrite := some TigeraStatusReady
        requeueAfterSeconds := 0
        error := s.statusUpdateErr }
    else
      { events := [StatusEvent.onCRFound, StatusEvent.clearDegraded]
        applied := ap.1
        statusWrite := none
        requeueAfterSeconds := 0
        error := none }

/-- Final phase (lines 498-565): configuration assembly, rendering, image-set
application, then the apply loop and status write. -/
def reconcileRender (r : ReconcileManager) (s : ClusterState) (variant : String)
    (installation : Installation) (tlsSecret : Option Secret) (operatorManaged : Bool)
    (complianceServerCertSecret : Option Secret) (pullSecrets : List Secret)
    (esClusterConfig : ESClusterConfig) (esSecrets : List Secret) (kibanaSecret : Secret)
    (managementCluster : Option ManagementCluster)
    (managementClusterConnection : Option ManagementClusterConnection)
    (tunnelSecret internalTrafficSecret : Option Secret)
    (keyValidatorConfig : Option KeyValidatorConfig) (elasticLicenseType : String)
    (packetCaptureServerCertSecret prometheusCertSecret : Option Secret) : Outcome :=
  let managerCfg : ManagerConfiguration :=
    buildManagerCfg r installation tlsSecret complianceServerCertSecret pullSecrets
      esClusterConfig esSecrets kibanaSecret managementCluster managementClusterConnection
      tunnelSecret internalTrafficSecret keyValidatorConfig elasticLicenseType
      packetCaptureServerCertSecret prometheusCertSecret
  match s.renderManagerErr with
  | some m => degradedStop "Error rendering Manager" m 0 (some m)
  | none =>
  match s.applyImageSetErr with
  | some m => degradedStop "Error with images from ImageSet" m 0 (some m)
  | none => applyAndStatus s (desiredComponents tlsSecret operatorManaged managerCfg)

/-- Continuation of the authentication phase once the Authentication CR (if
any) is known to be ready (lines 454-496): key-validator config, elastic
license type, packet-capture and prometheus certificates. -/
def reconcileAuthReady (r : ReconcileManager) (s : ClusterState) (variant : String)
    (installation : Installation) (tlsSecret : Option Secret) (operatorManaged : Bool)
    (complianceServerCertSecret : Option Secret) (pullSecrets : List Secret)
    (esClusterConfig : ESClusterConfig) (esSecrets : List Secret) (kibanaSecret : Secret)
    (managementCluster : Option ManagementCluster)
    (managementClusterConnection : Option ManagementClusterConnection)
    (tunnelSecret internalTrafficSecret : Option Secret) : Outcome :=
  match s.getKeyValidatorConfig with
  | .error m => degradedStop "Failed to process the authentication CR." m 0 (some m)
  | .ok keyValidatorConfig =>
  match (match managementClusterConnection with
         | none => s.getElasticLicenseType
         | some _ => Except.ok "") with
  | .error m => degradedStop "Failed to get Elasticsearch license" m 0 (some m)
  | .ok elasticLicenseType =>
  match s.validatePacketCaptureCertPair with
  | .error m => degradedStop ("Failed to retrieve " ++ PacketCaptureCertSecret) m 0 (some m)
  | .ok none =>
    degradedStop ("Waiting for secret " ++ "'" ++ PacketCaptureCertSecret ++ "'" ++
      " to become available") "" 0 none
  | .ok (some packetCaptureServerCertSecret) =>
  match s.validatePrometheusCertPair with
  | .error m => degradedStop ("Failed to retrieve " ++ PrometheusTLSSecretName) m 0 (some m)
  | .ok prometheusCertSecret =>
    reconcileRender r s variant installation tlsSecret operatorManaged
      complianceServerCertSecret pullSecrets esClusterConfig esSecrets kibanaSecret
      managementCluster managementClusterConnection tunnelSecret internalTrafficSecret
      keyValidatorConfig elasticLicenseType (some packetCaptureServerCertSecret)
      prometheusCertSecret

/-- Authentication phase (lines 443-452): fetch the optional Authentication
CR; a non-notfound fetch error stops the pass; a present CR that is not
ready stops it without an error. -/
def reconcileAuth (r : ReconcileManager) (s : ClusterState) (variant : String)
    (installation : Installation) (tlsSecret : Option Secret) (operatorManaged : Bool)
    (complianceServerCertSecret : Option Secret) (pullSecrets : List Secret)
    (esClusterConfig : ESClusterConfig) (esSecrets : List Secret) (kibanaSecret : Secret)
    (managementCluster : Option ManagementCluster)
    (managementClusterConnection : Option ManagementClusterConnection)
    (tunnelSecret internalTrafficSecret : Option Secret) : Outcome :=
  match s.getAuthentication with
  | .err m => degradedStop "Error while fetching Authentication" m 0 (some m)
  | .notFound _ =>
    reconcileAuthReady r s variant installation tlsSecret operatorManaged
      complianceServerCertSecret pullSecrets esClusterConfig esSecrets kibanaSecret
      managementCluster managementClusterConnection tunnelSecret internalTrafficSecret
  | .ok a =>
    if a.statusState = TigeraStatusReady then
      reconcileAuthReady r s variant installation tlsSecret operatorManaged
        complianceServerCertSecret pullSecrets esClusterConfig esSecrets kibanaSecret
        managementCluster managementClusterConnection tunnelSecret internalTrafficSecret
    else
      degradedStop "Authentication is not ready" ("authenticationCR status: " ++ a.statusState) 0 none

/-- Topology phase (lines 393-441): fetch the hub and spoke topology
resources, enforce their mutual exclusivity, and (hub only) fetch the tunnel
and internal-traffic secrets. -/
def reconcileTopology (r : ReconcileManager) (s : ClusterState) (variant : String)
    (installation : Installation) (tlsSecret : Option Secret) (operatorManaged : Bool)
    (complianceServerCertSecret : Option Secret) (pullSecrets : List Secret)
    (esClusterConfig : ESClusterConfig) (esSecrets : List Secret) (kibanaSecret : Secret) : Outcome :=
  match s.getManagementCluster with
  | .error m => degradedStop "Error reading ManagementCluster" m 0 (some m)
  | .ok managementCluster =>
  match s.getManagementClusterConnection with
  | .error m => degradedStop "Error reading ManagementClusterConnection" m 0 (some m)
  | .ok managementClusterConnection =>
  if managementClusterConnection.isSome && managementCluster.isSome then
    degradedStop conflictMsg "" 0 (some conflictMsg)
  else
  match managementCluster with
  | some _ =>
    (match s.getTunnelSecret with
     | .notFound m =>
       degradedStop "Failed to check for the existence of management-cluster-connection secret" m 0 none
     | .err m =>
       degradedStop "Failed to check for the existence of management-cluster-connection secret" m 0 none
     | .ok tunnelSecret =>
       match s.getInternalTrafficSecret with
       | .notFound _ =>
         degradedStop ("Waiting for secret " ++ ManagerInternalTLSSecretName ++
           " in namespace " ++ OperatorNamespace ++ " to be available") "" 0 none
       | .err m =>
         degradedStop ("Error fetching TLS secret " ++ ManagerInternalTLSSecretName ++
           " in namespace " ++ OperatorNamespace) m 0 (some m)
       | .ok internalTrafficSecret =>
         reconcileAuth r s variant installation tlsSecret operatorManaged
           complianceServerCertSecret pullSecrets esClusterConfig esSecrets kibanaSecret
           managementCluster managementClusterConnection (some tunnelSecret)
           (some internalTrafficSecret))
  | none =>
    reconcileAuth r s variant installation tlsSecret operatorManaged
      complianceServerCertSecret pullSecrets esClusterConfig esSecrets kibanaSecret
      managementCluster managementClusterConnection none none

/-- Dependency phase after compliance (lines 345-391): prometheus namespace,
pull secrets, elasticsearch cluster config, elasticsearch secrets, kibana
public certificate. -/
def reconcileDeps2 (r : ReconcileManager) (s : ClusterState) (variant : String)
    (installation : Installation) (tlsSecret : Option Secret) (operatorManaged : Bool)
    (complianceServerCertSecret : Option Secret) : Outcome :=
  match s.getPrometheusNamespace with
  | .notFound m =>
    degradedStop "tigera-prometheus namespace does not exist"
      "Dependency on tigera-prometheus not satisfied" 0 (some m)
  | .err m => degradedStop "Error querying prometheus" m 0 (some m)
  | .ok _ =>
  match s.getPullSecrets with
  | .error m => degradedStop "Error retrieving pull secrets" m 0 (some m)
  | .ok pullSecrets =>
  match s.getElasticsearchClusterConfig with
  | .notFound m =>
    degradedStop "Elasticsearch cluster configuration is not available, waiting for it to become available" m 0 none
  | .err m => degradedStop "Failed to get the elasticsearch cluster configuration" m 0 (some m)
  | .ok esClusterConfig =>
  match s.elasticsearchSecrets with
  | .notFound m =>
    degradedStop "Elasticsearch secrets are not available yet, waiting until they become available" m 0 none
  | .err m => degradedStop "Failed to get Elasticsearch credentials" m 0 (some m)
  | .ok esSecrets =>
  match s.getKibanaPublicCertSecret with
  | .notFound m => degradedStop "Failed to read Kibana public cert secret" m 0 (some m)
  | .err m => degradedStop "Failed to read Kibana public cert secret" m 0 (some m)
  | .ok kibanaSecret =>
    reconcileTopology r s variant installation tlsSecret operatorManaged
      complianceServerCertSecret pullSecrets esClusterConfig esSecrets kibanaSecret

/-- Compliance phase (lines 309-343): when the compliance feature is
licensed, the Compliance resource must exist and be ready and its serving
certificate must be materialized. -/
def reconcileDeps (r : ReconcileManager) (s : ClusterState) (license : License)
    (variant : String) (installation : Installation) (tlsSecret : Option Secret)
    (operatorManaged : Bool) : Outcome :=
  if IsFeatureActive license ComplianceFeature then
    match s.getCompliance with
    | .notFound m => degradedStop "Compliance not found" m 0 (some m)
    | .err m => degradedStop "Error querying compliance" m 0 (some m)
    | .ok compliance =>
      if compliance.statusState = TigeraStatusReady then
        match s.validateComplianceCertPair with
        | .error m => degradedStop ("Failed to retrieve " ++ ComplianceServerCertSecret) m 0 (some m)
        | .ok none =>
          degradedStop ("Waiting for secret " ++ "'" ++ ComplianceServerCertSecret ++ "'" ++
            " to become available") "" 0 none
        | .ok (some sec) =>
          reconcileDeps2 r s variant installation tlsSecret operatorManaged (some sec)
      else
        degradedStop "Compliance is not ready" ("compliance status: " ++ compliance.statusState) 0 none
  else
    reconcileDeps2 r s variant installation tlsSecret operatorManaged none

/-- Certificate phase (lines 276-307): when the installation does not
delegate certificate management, ensure an operator-managed certificate
exists (synthesizing a self-signed one when absent); when it does delegate,
an existing secret must be attributable to the operator, otherwise the pass
fails with an invalid-certificate-configuration error. -/
def reconcileCert (r : ReconcileManager) (s : ClusterState) (license : License)
    (variant : String) (installation : Installation) (tlsSecret0 : Option Secret) : Outcome :=
  match installation.certificateManagement with
  | none =>
    (match s.ensureCertErr with
     | some m => degradedStop ensureCertDegradedReason m 0 (some m)
     | none =>
       let p := ensureCertificateSecret tlsSecret0 managerCertDur
         (managerSvcDNSNames r.clusterDomain) s.now
       reconcileDeps r s license variant installation (some p.1) p.2)
  | some _ =>
    match tlsSecret0 with
    | some ts =>
      (match s.isCertOperatorIssuedErr with
       | some m =>
         degradedStop "Error checking if manager TLS certificate is operator managed" m 0 (some m)
       | none =>
         if ts.cert.operatorIssued then
           reconcileDeps r s license variant installation (some ts) true
         else
           degradedStop "Invalid certificate configuration" userProvidedMsg 0 (some userProvidedMsg))
    | none => reconcileDeps r s license variant installation none false

/-- `ReconcileManager.Reconcile` (lines 207-566): the full pass. -/
def Reconcile (r : ReconcileManager) (s : ClusterState) : Outcome :=
  match GetManager s with
  | .notFound _ =>
    { events := [StatusEvent.onCRNotFound]
      applied := []
      statusWrite := none
      requeueAfterSeconds := 0
      error := none }
  | .err m =>
    { events := [StatusEvent.setDegraded "Error querying Manager" m]
      applied := []
      statusWrite := none
      requeueAfterSeconds := 0
      error := some m }
  | .ok _ =>
    if !s.apiServerReady then
      degradedStop "Waiting for Tigera API server to be ready" "" 0 none
    else if !s.licenseAPIReady then
      degradedStop "Waiting for LicenseKeyAPI to be ready" "" 10 none
    else
    match s.fetchLicenseKey with
    | .notFound m => degradedStop "License not found" m 10 none
    | .err m => degradedStop "Error querying license" m 10 none
    | .ok license =>
    match s.getInstallation with
    | .notFound m => degradedStop "Installation not found" m 0 (some m)
    | .err m => degradedStop "Error querying installation" m 0 (some m)
    | .ok (variant, installation) =>
    match s.validateManagerCertPair with
    | .error m => degradedStop "Error validating manager TLS certificate" m 0 (some m)
    | .ok tlsSecret0 => reconcileCert r s license variant installation tlsSecret0

-- Example fixtures used by the witnesses below.

def rEx : ReconcileManager := { provider := "GKE", clusterDomain := "cluster.local" }

def certOk : Cert :=
  { sans := ["x"], notBefore := 0, notAfter := 100, selfSigned := false, operatorIssued := true }

def secEx : Secret := { name := "sec", ns := OperatorNamespace, cert := certOk }

def licenseEx : License := { features := [] }

def installEx : Installation := { certificateManagement := none, controlPlaneReplicas := some 3 }

def mgrEx : ManagerCR := { auth := none }

/-- A cluster state in which every gate passes and every apply succeeds. -/
def sOK : ClusterState :=
  { getManager := .ok mgrEx
    apiServerReady := true
    licenseAPIReady := true
    fetchLicenseKey := .ok licenseEx
    getInstallation := .ok ("TigeraSecureEnterprise", installEx)
    validateManagerCertPair := .ok none
    ensureCertErr := none
    now := 1000
    isCertOperatorIssuedErr := none
    getCompliance := .ok { statusState := TigeraStatusReady }
    validateComplianceCertPair := .ok (some secEx)
    getPrometheusNamespace := .ok ()
    getPullSecrets := .ok []
    getElasticsearchClusterConfig := .ok "escfg"
    elasticsearchSecrets := .ok [secEx]
    getKibanaPublicCertSecret := .ok secEx
    getManagementCluster := .ok none
    getManagementClusterConnection := .ok none
    getTunnelSecret := .ok secEx
    getInternalTrafficSecret := .ok secEx
    getAuthentication := .notFound "authentication not found"
    getKeyValidatorConfig := .ok none
    getElasticLicenseType := .ok "basic"
    validatePacketCaptureCertPair := .ok (some secEx)
    validatePrometheusCertPair := .ok (some secEx)
    renderManagerErr := none
    applyImageSetErr := none
    applyErr := fun _ => none
    statusIsAvailable := true
    statusUpdateErr := none }

def mgrBasic : ManagerCR := { auth := some { authType := "Basic" } }

def sC1 : ClusterState := { sOK with fetchLicenseKey := .err "transient fetch failure" }

def sC2 : ClusterState := { sOK with getManager := .ok mgrBasic }

def mcEx : ManagementCluster := { name := "mc" }

def mccEx : ManagementClusterConnection := { name := "mcc" }

def sBoth : ClusterState :=
  { sOK with
    getManagementCluster := .ok (some mcEx)
    getManagementClusterConnection := .ok (some mccEx) }

def installCM : Installation :=
  { certificateManagement := some "cm", controlPlaneReplicas := some 3 }

def certUser : Cert :=
  { sans := ["x"], notBefore := 0, notAfter := 100, selfSigned := false, operatorIssued := false }

def secUser : Secret := { name := ManagerTLSSecretName, ns := OperatorNamespace, cert := certUser }

def sC8 : ClusterState :=
  { sOK with
    getInstallation := .ok ("TigeraSecureEnterprise", installCM)
    validateManagerCertPair := .ok (some secUser) }

-- Helper lemmas about the apply loop.

theorem applyComponents_cons_some (f : Component → Option String) (c : Component)
    (rest : List Component) (m : String) (h : f c = some m) :
    applyComponents f (c :: rest) = ([c], some m) := by
  simp [applyComponents, h]

theorem applyComponents_cons_none (f : Component → Option String) (c : Component)
    (rest : List Component) (h : f c = none) :
    applyComponents f (c :: rest) =
      (c :: (applyComponents f rest).1, (applyComponents f rest).2) := by
  simp [applyComponents, h]

theorem applyComponents_isPrefix (f : Component → Option String) (l : List Component) :
    (applyComponents f l).1 <+: l := by
  induction l with
  | nil => simp [applyComponents]
  | cons c rest ih =>
    cases hfc : f c with
    | some m =>
      rw [applyComponents_cons_some f c rest m hfc]
      exact List.cons_prefix_cons.mpr ⟨rfl, List.nil_prefix⟩
    | none =>
      rw [applyComponents_cons_none f c rest hfc]
      exact List.cons_prefix_cons.mpr ⟨rfl, ih⟩

theorem applyComponents_none (f : Component → Option String) (l : List Component)
    (h : (applyComponents f l).2 = none) :
    (applyComponents f l).1 = l ∧ ∀ c ∈ l, f c = none := by
  induction l with
  | nil => simp [applyComponents]
  | cons c rest ih =>
    cases hfc : f c with
    | some m => rw [applyComponents_cons_some f c rest m hfc] at h; simp at h
    | none =>
      rw [applyComponents_cons_none f c rest hfc] at h ⊢
      obtain ⟨h1, h2⟩ := ih h
      refine ⟨by rw [h1], ?_⟩
      intro c' hc'
      rcases List.mem_cons.mp hc' with h' | h'
      · exact h' ▸ hfc
      · exact h2 c' h'

theorem applyComponents_some (f : Component → Option String) (l : List Component)
    (m : String) (h : (applyComponents f l).2 = some m) :
    ∃ c, (applyComponents f l).1.getLast? = some c ∧ f c = some m ∧
      ∀ c' ∈ (applyComponents f l).1.dropLast, f c' = none := by
  induction l with
  | nil => simp [applyComponents] at h
  | cons c rest ih =>
    cases hfc : f c with
    | some m' =>
      rw [applyComponents_cons_some f c rest m' hfc] at h ⊢
      simp only [Option.some.injEq] at h
      exact ⟨c, by simp, by rw [hfc, h], by simp⟩
    | none =>
      rw [applyComponents_cons_none f c rest hfc] at h ⊢
      dsimp only at h ⊢
      obtain ⟨c', h1, h2, h3⟩ := ih h
      cases hp : (applyComponents f rest).1 with
      | nil => rw [hp] at h1; simp at h1
      | cons x xs =>
        rw [hp] at h1 h3
        refine ⟨c', ?_, h2, ?_⟩
        · rw [List.getLast?_cons_cons]; exact h1
        · intro c'' hc''
          simp only [List.dropLast] at hc''
          rcases List.mem_cons.mp hc'' with h' | h'
          · exact h' ▸ hfc
          · exact h3 c'' h'

-- The status subresource is written exactly on a fully successful pass with
-- the aggregator reporting available.  Proved phase by phase.

theorem applyAndStatus_statusWrite (s : ClusterState) (comps : List Component) :
    (applyAndStatus s comps).statusWrite =
      if StatusEvent.clearDegraded ∈ (applyAndStatus s comps).events
          ∧ s.statusIsAvailable = true
      then some TigeraStatusReady else none := by
  unfold applyAndStatus
  cases hap : (applyComponents s.applyErr comps).2 with
  | some m => simp [hap]
  | none =>
    cases hav : s.statusIsAvailable <;> simp [hap, hav]

theorem reconcileRender_statusWrite (r : ReconcileManager) (s : ClusterState)
    (v : String) (ins : Installation) (ts : Option Secret) (om : Bool)
    (ccs : Option Secret) (ps : List Secret) (esc : ESClusterConfig)
    (ess : List Secret) (kib : Secret) (mc : Option ManagementCluster)
    (mcc : Option ManagementClusterConnection) (tun itr : Option Secret)
    (kvc : Option KeyValidatorConfig) (elt : String) (pcc prc : Option Secret) :
    (reconcileRender r s v ins ts om ccs ps esc ess kib mc mcc tun itr kvc elt pcc prc).statusWrite =
      if StatusEvent.clearDegraded ∈
          (reconcileRender r s v ins ts om ccs ps esc ess kib mc mcc tun itr kvc elt pcc prc).events
          ∧ s.statusIsAvailable = true
      then some TigeraStatusReady else none := by
  unfold reconcileRender
  cases s.renderManagerErr with
  | some m => simp [degradedStop]
  | none =>
    cases s.applyImageSetErr with
    | some m => simp [degradedStop]
    | none => apply applyAndStatus_statusWrite

theorem reconcileAuthReady_statusWrite (r : ReconcileManager) (s : ClusterState)
    (v : String) (ins : Installation) (ts : Option Secret) (om : Bool)
    (ccs : Option Secret) (ps : List Secret) (esc : ESClusterConfig)
    (ess : List Secret) (kib : Secret) (mc : Option ManagementCluster)
    (mcc : Option ManagementClusterConnection) (tun itr : Option Secret) :
    (reconcileAuthReady r s v ins ts om ccs ps esc ess kib mc mcc tun itr).statusWrite =
      if StatusEvent.clearDegraded ∈
          (reconcileAuthReady r s v ins ts om ccs ps esc ess kib mc mcc tun itr).events
          ∧ s.statusIsAvailable = true
      then some TigeraStatusReady else none := by
  unfold reconcileAuthReady
  cases s.getKeyValidatorConfig with
  | error m => simp [degradedStop]
  | ok kvc =>
    cases hel : (match mcc with
                 | none => s.getElasticLicenseType
                 | some _ => Except.ok "") with
    | error m => simp [degradedStop]
    | ok elt =>
      cases s.validatePacketCaptureCertPair with
      | error m => simp [degradedStop]
      | ok pcs =>
        cases pcs with
        | none => simp [degradedStop]
        | some pc =>
          cases s.validatePrometheusCertPair with
          | error m => simp [degradedStop]
          | ok prc => apply reconcileRender_statusWrite

theorem reconcileAuth_statusWrite (r : ReconcileManager) (s : ClusterState)
    (v : String) (ins : Installation) (ts : Option Secret) (om : Bool)
    (ccs : Option Secret) (ps : List Secret) (esc : ESClusterConfig)
    (ess : List Secret) (kib : Secret) (mc : Option ManagementCluster)
    (mcc : Option ManagementClusterConnection) (tun itr : Option Secret) :
    (reconcileAuth r s v ins ts om ccs ps esc ess kib mc mcc tun itr).statusWrite =
      if StatusEvent.clearDegraded ∈
          (reconcileAuth r s v ins ts om ccs ps esc ess kib mc mcc tun itr).events
          ∧ s.statusIsAvailable = true
      then some TigeraStatusReady else none := by
  unfold reconcileAuth
  cases s.getAuthentication with
  | err m => simp [degradedStop]
  | notFound m => apply reconcileAuthReady_statusWrite
  | ok a =>
    dsimp only
    by_cases h : a.statusState = TigeraStatusReady
    · rw [if_pos h]; apply reconcileAuthReady_statusWrite
    · rw [if_neg h]; simp [degradedStop]

theorem reconcileTopology_statusWrite (r : ReconcileManager) (s : ClusterState)
    (v : String) (ins : Installation) (ts : Option Secret) (om : Bool)
    (ccs : Option Secret) (ps : List Secret) (esc : ESClusterConfig)
    (ess : List Secret) (kib : Secret) :
    (reconcileTopology r s v ins ts om ccs ps esc ess kib).statusWrite =
      if StatusEvent.clearDegraded ∈
          (reconcileTopology r s v ins ts om ccs ps esc ess kib).events
          ∧ s.statusIsAvailable = true
      then some TigeraStatusReady else none := by
  unfold reconcileTopology
  cases s.getManagementCluster with
  | error m => simp [degradedStop]
  | ok mc' =>
    cases s.getManagementClusterConnection with
    | error m => simp [degradedStop]
    | ok mcc' =>
      cases hb : (mcc'.isSome && mc'.isSome) with
      | true => simp [hb, degradedStop]
      | false =>
        dsimp only
        simp only [hb, Bool.false_eq_true, if_false]
        cases mc' with
        | some m0 =>
          cases s.getTunnelSecret with
          | notFound m => simp [degradedStop]
          | err m => simp [degradedStop]
          | ok tun' =>
            cases s.getInternalTrafficSecret with
            | notFound m => simp [degradedStop]
            | err m => simp [degradedStop]
            | ok itr' => apply reconcileAuth_statusWrite
        | none => apply reconcileAuth_statusWrite

theorem reconcileDeps2_statusWrite (r : ReconcileManager) (s : ClusterState)
    (v : String) (ins : Installation) (ts : Option Secret) (om : Bool)
    (ccs : Option Secret) :
    (reconcileDeps2 r s v ins ts om ccs).statusWrite =
      if StatusEvent.clearDegraded ∈ (reconcileDeps2 r s v ins ts om ccs).events
          ∧ s.statusIsAvailable = true
      then some TigeraStatusReady else none := by
  unfold reconcileDeps2
  cases s.getPrometheusNamespace with
  | notFound m => simp [degradedStop]
  | err m => simp [degradedStop]
  | ok u =>
    cases s.getPullSecrets with
    | error m => simp [degradedStop]
    | ok ps' =>
      cases s.getElasticsearchClusterConfig with
      | notFound m => simp [degradedStop]
      | err m => simp [degradedStop]
      | ok esc' =>
        cases s.elasticsearchSecrets with
        | notFound m => simp [degradedStop]
        | err m => simp [degradedStop]
        | ok ess' =>
          cases s.getKibanaPublicCertSecret with
          | notFound m => simp [degradedStop]
          | err m => simp [degradedStop]
          | ok kib' => apply reconcileTopology_statusWrite

theorem reconcileDeps_statusWrite (r : ReconcileManager) (s : ClusterState)
    (lic : License) (v : String) (ins : Installation) (ts : Option Secret) (om : Bool) :
    (reconcileDeps r s lic v ins ts om).statusWrite =
      if StatusEvent.clearDegraded ∈ (reconcileDeps r s lic v ins ts om).events
          ∧ s.statusIsAvailable = true
      then some TigeraStatusReady else none := by
  unfold reconcileDeps
  cases hf : IsFeatureActive lic ComplianceFeature with
  | false =>
    simp only [hf, Bool.false_eq_true, if_false]
    apply reconcileDeps2_statusWrite
  | true =>
    simp only [hf, if_true]
    cases s.getCompliance with
    | notFound m => simp [degradedStop]
    | err m => simp [degradedStop]
    | ok comp =>
      dsimp only
      by_cases h : comp.statusState = TigeraStatusReady
      · rw [if_pos h]
        cases s.validateComplianceCertPair with
        | error m => simp [degradedStop]
        | ok cs =>
          cases cs with
          | none => simp [degradedStop]
          | some sec => apply reconcileDeps2_statusWrite
      · rw [if_neg h]; simp [degradedStop]

theorem reconcileCert_statusWrite (r : ReconcileManager) (s : ClusterState)
    (lic : License) (v : String) (ins : Installation) (ts0 : Option Secret) :
    (reconcileCert r s lic v ins ts0).statusWrite =
      if StatusEvent.clearDegraded ∈ (reconcileCert r s lic v ins ts0).events
          ∧ s.statusIsAvailable = true
      then some TigeraStatusReady else none := by
  unfold reconcileCert
  cases ins.certificateManagement with
  | none =>
    cases s.ensureCertErr with
    | some m => simp [degradedStop]
    | none => apply reconcileDeps_statusWrite
  | some cm =>
    cases ts0 with
    | none => apply reconcileDeps_statusWrite
    | some ts =>
      cases s.isCertOperatorIssuedErr with
      | some m => simp [degradedStop]
      | none =>
        dsimp only
        cases hop : ts.cert.operatorIssued with
        | true =>
          simp only [hop, if_true]
          apply reconcileDeps_statusWrite
        | false => simp [hop, degradedStop]

theorem Reconcile_statusWrite (r : ReconcileManager) (s : ClusterState) :
    (Reconcile r s).statusWrite =
      if StatusEvent.clearDegraded ∈ (Reconcile r s).events ∧ s.statusIsAvailable = true
      then some TigeraStatusReady else none := by
  unfold Reconcile
  cases GetManager s with
  | notFound m => simp
  | err m => simp
  | ok inst =>
    cases ha : s.apiServerReady with
    | false => simp [ha, degradedStop]
    | true =>
      simp only [ha, Bool.not_true, Bool.false_eq_true, if_false]
      cases hl : s.licenseAPIReady with
      | false => simp [hl, degradedStop]
      | true =>
        simp only [hl, Bool.not_true, Bool.false_eq_true, if_false]
        cases s.fetchLicenseKey with
        | notFound m => simp [degradedStop]
        | err m => simp [degradedStop]
        | ok lic =>
          cases s.getInstallation with
          | notFound m => simp [degradedStop]
          | err m => simp [degradedStop]
          | ok p =>
            obtain ⟨v, ins⟩ := p
            cases s.validateManagerCertPair with
            | error m => simp [degradedStop]
            | ok ts0 => apply reconcileCert_statusWrite

-- When both topology resources exist, the topology gate stops the pass with
-- the conflict error, and consequently no component is ever applied and the
-- status subresource is never written, whatever the rest of the state.

theorem reconcileTopology_conflict (r : ReconcileManager) (s : ClusterState)
    (v : String) (ins : Installation) (ts : Option Secret) (om : Bool)
    (ccs : Option Secret) (ps : List Secret) (esc : ESClusterConfig)
    (ess : List Secret) (kib : Secret)
    (mc0 : ManagementCluster) (mcc0 : ManagementClusterConnection)
    (h1 : s.getManagementCluster = Except.ok (some mc0))
    (h2 : s.getManagementClusterConnection = Except.ok (some mcc0)) :
    reconcileTopology r s v ins ts om ccs ps esc ess kib =
      degradedStop conflictMsg "" 0 (some conflictMsg) := by
  unfold reconcileTopology
  rw [h1, h2]
  simp

theorem reconcileDeps2_conflict (r : ReconcileManager) (s : ClusterState)
    (v : String) (ins : Installation) (ts : Option Secret) (om : Bool)
    (ccs : Option Secret)
    (mc0 : ManagementCluster) (mcc0 : ManagementClusterConnection)
    (h1 : s.getManagementCluster = Except.ok (some mc0))
    (h2 : s.getManagementClusterConnection = Except.ok (some mcc0)) :
    (reconcileDeps2 r s v ins ts om ccs).applied = [] ∧
      (reconcileDeps2 r s v ins ts om ccs).statusWrite = none := by
  unfold reconcileDeps2
  cases s.getPrometheusNamespace with
  | notFound m => simp [degradedStop]
  | err m => simp [degradedStop]
  | ok u =>
    cases s.getPullSecrets with
    | error m => simp [degradedStop]
    | ok ps' =>
      cases s.getElasticsearchClusterConfig with
      | notFound m => simp [degradedStop]
      | err m => simp [degradedStop]
      | ok esc' =>
        cases s.elasticsearchSecrets with
        | notFound m => simp [degradedStop]
        | err m => simp [degradedStop]
        | ok ess' =>
          cases s.getKibanaPublicCertSecret with
          | notFound m => simp [degradedStop]
          | err m => simp [degradedStop]
          | ok kib' =>
            dsimp only
            rw [reconcileTopology_conflict r s v ins ts om ccs ps' esc' ess' kib' mc0 mcc0 h1 h2]
            simp [degradedStop]

theorem reconcileDeps_conflict (r : ReconcileManager) (s : ClusterState)
    (lic : License) (v : String) (ins : Installation) (ts : Option Secret) (om : Bool)
    (mc0 : ManagementCluster) (mcc0 : ManagementClusterConnection)
    (h1 : s.getManagementCluster = Except.ok (some mc0))
    (h2 : s.getManagementClusterConnection = Except.ok (some mcc0)) :
    (reconcileDeps r s lic v ins ts om).applied = [] ∧
      (reconcileDeps r s lic v ins ts om).statusWrite = none := by
  unfold reconcileDeps
  cases hf : IsFeatureActive lic ComplianceFeature with
  | false =>
    simp only [hf, Bool.false_eq_true, if_false]
    exact reconcileDeps2_conflict r s v ins ts om none mc0 mcc0 h1 h2
  | true =>
    simp only [hf, if_true]
    cases s.getCompliance with
    | notFound m => simp [degradedStop]
    | err m => simp [degradedStop]
    | ok comp =>
      dsimp only
      by_cases h : comp.statusState = TigeraStatusReady
      · rw [if_pos h]
        cases s.validateComplianceCertPair with
        | error m => simp [degradedStop]
        | ok cs =>
          cases cs with
          | none => simp [degradedStop]
          | some sec => exact reconcileDeps2_conflict r s v ins ts om (some sec) mc0 mcc0 h1 h2
      · rw [if_neg h]; simp [degradedStop]

theorem reconcileCert_conflict (r : ReconcileManager) (s : ClusterState)
    (lic : License) (v : String) (ins : Installation) (ts0 : Option Secret)
    (mc0 : ManagementCluster) (mcc0 : ManagementClusterConnection)
    (h1 : s.getManagementCluster = Except.ok (some mc0))
    (h2 : s.getManagementClusterConnection = Except.ok (some mcc0)) :
    (reconcileCert r s lic v ins ts0).applied = [] ∧
      (reconcileCert r s lic v ins ts0).statusWrite = none := by
  unfold reconcileCert
  cases ins.certificateManagement with
  | none =>
    cases s.ensureCertErr with
    | some m => simp [degradedStop]
    | none =>
      exact reconcileDeps_conflict r s lic v ins _ _ mc0 mcc0 h1 h2
  | some cm =>
    cases ts0 with
    | none => exact reconcileDeps_conflict r s lic v ins none false mc0 mcc0 h1 h2
    | some ts =>
      cases s.isCertOperatorIssuedErr with
      | some m => simp [degradedStop]
      | none =>
        dsimp only
        cases hop : ts.cert.operatorIssued with
        | true =>
          simp only [hop, if_true]
          exact reconcileDeps_conflict r s lic v ins (some ts) true mc0 mcc0 h1 h2
        | false => simp [hop, degradedStop]

theorem Reconcile_conflict (r : ReconcileManager) (s : ClusterState)
    (mc0 : ManagementCluster) (mcc0 : ManagementClusterConnection)
    (h1 : s.getManagementCluster = Except.ok (some mc0))
    (h2 : s.getManagementClusterConnection = Except.ok (some mcc0)) :
    (Reconcile r s).applied = [] ∧ (Reconcile r s).statusWrite = none := by
  unfold Reconcile
  cases GetManager s with
  | notFound m => simp
  | err m => simp
  | ok inst =>
    cases ha : s.apiServerReady with
    | false => simp [ha, degradedStop]
    | true =>
      simp only [ha, Bool.not_true, Bool.false_eq_true, if_false]
      cases hl : s.licenseAPIReady with
      | false => simp [hl, degradedStop]
      | true =>
        simp only [hl, Bool.not_true, Bool.false_eq_true, if_false]
        cases s.fetchLicenseKey with
        | notFound m => simp [degradedStop]
        | err m => simp [degradedStop]
        | ok lic =>
          cases s.getInstallation with
          | notFound m => simp [degradedStop]
          | err m => simp [degradedStop]
          | ok p =>
            obtain ⟨v, ins⟩ := p
            cases s.validateManagerCertPair with
            | error m => simp [degradedStop]
            | ok ts0 => exact reconcileCert_conflict r s lic v ins ts0 mc0 mcc0 h1 h2

-- Further helper lemmas about the final phase.

theorem applyAndStatus_applied (s : ClusterState) (comps : List Component) :
    (applyAndStatus s comps).applied = (applyComponents s.applyErr comps).1 := by
  unfold applyAndStatus
  cases hap : (applyComponents s.applyErr comps).2 with
  | some m => simp [hap]
  | none => cases hav : s.statusIsAvailable <;> simp [hap, hav]

theorem applyAndStatus_error_some (s : ClusterState) (comps : List Component) (m : String)
    (h : (applyComponents s.applyErr comps).2 = some m) :
    (applyAndStatus s comps).error = some m := by
  unfold applyAndStatus
  dsimp only
  rw [h]

theorem mem_desiredComponents_rendered (ts : Option Secret) (om : Bool)
    (cfg cfg0 : ManagerConfiguration)
    (h : Component.rendered cfg ∈ desiredComponents ts om cfg0) : cfg = cfg0 := by
  unfold desiredComponents at h
  rcases List.mem_append.mp h with h' | h'
  · exfalso
    cases ts <;> cases om <;> simp at h'
  · simpa using h'

-- Claim theorems.

/-- C1 (counterexample): the claim says a non-notfound license fetch error
ends the pass as a Fail, i.e. the error is returned to the scheduler.  In
the code (manager_controller.go lines 241-242) the pass instead sets
Degraded "Error querying license" and returns a 10-second requeue with no
error: at this concrete state the returned error is `none`. -/
theorem licenseFetchFail_returns_no_error :
    (Reconcile rEx sC1).error = none ∧
    (Reconcile rEx sC1).requeueAfterSeconds = 10 ∧
    (Reconcile rEx sC1).events =
      [StatusEvent.onCRFound,
       StatusEvent.setDegraded "Error querying license" "transient fetch failure"] :=
  ⟨rfl, rfl, rfl⟩

/-- C1 (amended): in the license gate, a not-found fetch result ends the pass
as a Wait (Degraded "License not found", 10-second requeue, no error), and
every other fetch error likewise ends the pass as a Wait (Degraded
"Error querying license", 10-second requeue, no error returned). -/
theorem licenseFetch_degraded_requeue (r : ReconcileManager) (s : ClusterState)
    (inst : ManagerCR) (h1 : GetManager s = GetResult.ok inst)
    (h2 : s.apiServerReady = true) (h3 : s.licenseAPIReady = true) :
    (∀ m, s.fetchLicenseKey = GetResult.notFound m →
       Reconcile r s = degradedStop "License not found" m 10 none) ∧
    (∀ m, s.fetchLicenseKey = GetResult.err m →
       Reconcile r s = degradedStop "Error querying license" m 10 none) := by
  constructor <;> intro m hm <;> (unfold Reconcile; rw [h1]; simp [h2, h3, hm])

theorem licenseFetch_degraded_requeue_witness :
    Reconcile rEx sC1 = degradedStop "Error querying license" "transient fetch failure" 10 none :=
  (licenseFetch_degraded_requeue rEx sC1 mgrEx rfl rfl rfl).2 "transient fetch failure" rfl

set_option maxRecDepth 20000 in
/-- C2 (counterexample): the claim says the error message identifies the
unsupported mode.  With the auth-mode tag set to "Basic" the pass does fail
immediately, but the error text is the fixed `authErrMsg`, which does not
contain the string "Basic" anywhere. -/
theorem authMode_message_lacks_mode :
    (Reconcile rEx sC2).error = some authErrMsg ∧
    ¬ ("Basic".data <:+: authErrMsg.data) := by
  exact ⟨rfl, by decide⟩

/-- C2 (amended): for every Manager resource whose auth-mode tag is present
and differs from `Token`, the pass fails immediately — the outcome is fixed
before any other gate result of the state is consulted — with Degraded
reason "Error querying Manager" and the fixed error message stating that
auth types other than `Token` are no longer supported (the message does not
echo the specific unsupported value). -/
theorem authMode_unsupported_immediate_fail (r : ReconcileManager) (s : ClusterState)
    (inst : ManagerCR) (a : ManagerAuth)
    (h1 : s.getManager = GetResult.ok inst) (h2 : inst.auth = some a)
    (h3 : a.authType ≠ AuthTypeToken) :
    Reconcile r s =
      { events := [StatusEvent.setDegraded "Error querying Manager" authErrMsg]
        applied := []
        statusWrite := none
        requeueAfterSeconds := 0
        error := some authErrMsg } := by
  have hg : GetManager s = GetResult.err authErrMsg := by
    unfold GetManager
    rw [h1]
    dsimp only
    rw [h2]
    dsimp only
    rw [if_neg h3]
  unfold Reconcile
  rw [hg]

theorem authMode_unsupported_immediate_fail_witness :
    Reconcile rEx sC2 =
      { events := [StatusEvent.setDegraded "Error querying Manager" authErrMsg]
        applied := []
        statusWrite := none
        requeueAfterSeconds := 0
        error := some authErrMsg } :=
  authMode_unsupported_immediate_fail rEx sC2 mgrBasic { authType := "Basic" } rfl rfl (by decide)

/-- C3: whenever both the hub topology resource (ManagementCluster) and the
spoke topology resource (ManagementClusterConnection) exist, the pass
performs zero apply operations and never writes the status subresource —
whatever the rest of the cluster state — and the topology gate itself stops
the pass with Degraded set to the conflict message and that conflict error
returned to the scheduler. -/
theorem topology_conflict_no_applies (r : ReconcileManager) (s : ClusterState)
    (mc0 : ManagementCluster) (mcc0 : ManagementClusterConnection)
    (h1 : s.getManagementCluster = Except.ok (some mc0))
    (h2 : s.getManagementClusterConnection = Except.ok (some mcc0)) :
    (Reconcile r s).applied = [] ∧ (Reconcile r s).statusWrite = none ∧
    (∀ v ins ts om ccs ps esc ess kib,
       reconcileTopology r s v ins ts om ccs ps esc ess kib =
         degradedStop conflictMsg "" 0 (some conflictMsg)) := by
  refine ⟨(Reconcile_conflict r s mc0 mcc0 h1 h2).1,
          (Reconcile_conflict r s mc0 mcc0 h1 h2).2, ?_⟩
  intro v ins ts om ccs ps esc ess kib
  exact reconcileTopology_conflict r s v ins ts om ccs ps esc ess kib mc0 mcc0 h1 h2

theorem topology_conflict_no_applies_witness :
    (Reconcile rEx sBoth).applied = [] ∧ (Reconcile rEx sBoth).statusWrite = none ∧
    Reconcile rEx sBoth = degradedStop conflictMsg "" 0 (some conflictMsg) := by
  have h := topology_conflict_no_applies rEx sBoth mcEx mccEx rfl rfl
  exact ⟨h.1, h.2.1, rfl⟩

/-- C4: the primary resource's status subresource is written — always with
state `Ready` — exactly when the pass fully succeeded (the outcome contains
the `ClearDegraded` event, which is emitted only after every gate cleared
and every component applied without error) and the status aggregator
independently reports the controller available; in particular, when the
availability signal is false the write is skipped even after a fully
successful pass. -/
theorem statusWrite_iff_success_and_available (r : ReconcileManager) (s : ClusterState) :
    (Reconcile r s).statusWrite =
      if StatusEvent.clearDegraded ∈ (Reconcile r s).events ∧ s.statusIsAvailable = true
      then some TigeraStatusReady else none :=
  Reconcile_statusWrite r s

/-- C5: for every desired object set, components are applied strictly in
list order, with the TLS passthrough component (when present, i.e. when the
TLS secret exists and is operator managed) preceding the main rendered
component; the components handed to the apply engine always form a prefix of
the desired list, and either every component applies cleanly (and all are
applied), or the first failing component is the last one applied — no later
component is applied — and its error is the pass's error. -/
theorem apply_order_stop_at_first_error (r : ReconcileManager) (s : ClusterState)
    (v : String) (ins : Installation) (ts : Option Secret) (om : Bool)
    (ccs : Option Secret) (ps : List Secret) (esc : ESClusterConfig)
    (ess : List Secret) (kib : Secret) (mc : Option ManagementCluster)
    (mcc : Option ManagementClusterConnection) (tun itr : Option Secret)
    (kvc : Option KeyValidatorConfig) (elt : String) (pcc prc : Option Secret)
    (h1 : s.renderManagerErr = none) (h2 : s.applyImageSetErr = none) :
    ∃ cfg : ManagerConfiguration,
      (∀ ts0, ts = some ts0 → om = true →
         desiredComponents ts om cfg =
           [Component.passthrough ts0, Component.rendered cfg]) ∧
      (reconcileRender r s v ins ts om ccs ps esc ess kib mc mcc tun itr kvc elt pcc prc).applied
        <+: desiredComponents ts om cfg ∧
      (((reconcileRender r s v ins ts om ccs ps esc ess kib mc mcc tun itr kvc elt pcc prc).applied
          = desiredComponents ts om cfg ∧
        (∀ c ∈ desiredComponents ts om cfg, s.applyErr c = none)) ∨
       (∃ c m,
         (reconcileRender r s v ins ts om ccs ps esc ess kib mc mcc tun itr kvc elt pcc prc).error
           = some m ∧
         (reconcileRender r s v ins ts om ccs ps esc ess kib mc mcc tun itr kvc elt pcc prc).applied.getLast?
           = some c ∧
         s.applyErr c = some m ∧
         (∀ c' ∈ (reconcileRender r s v ins ts om ccs ps esc ess kib mc mcc tun itr kvc elt pcc prc).applied.dropLast,
            s.applyErr c' = none))) := by
  have hr : reconcileRender r s v ins ts om ccs ps esc ess kib mc mcc tun itr kvc elt pcc prc =
      applyAndStatus s (desiredComponents ts om
        (buildManagerCfg r ins ts ccs ps esc ess kib mc mcc tun itr kvc elt pcc prc)) := by
    unfold reconcileRender
    rw [h1]
    dsimp only
    rw [h2]
  refine ⟨buildManagerCfg r ins ts ccs ps esc ess kib mc mcc tun itr kvc elt pcc prc, ?_, ?_, ?_⟩
  · intro ts0 hts hom
    subst hts; subst hom
    simp [desiredComponents]
  · rw [hr, applyAndStatus_applied]
    exact applyComponents_isPrefix s.applyErr _
  · cases hap : (applyComponents s.applyErr (desiredComponents ts om
        (buildManagerCfg r ins ts ccs ps esc ess kib mc mcc tun itr kvc elt pcc prc))).2 with
    | none =>
      left
      obtain ⟨ha, hb⟩ := applyComponents_none s.applyErr _ hap
      exact ⟨by rw [hr, applyAndStatus_applied, ha], hb⟩
    | some m =>
      right
      obtain ⟨c, hc1, hc2, hc3⟩ := applyComponents_some s.applyErr _ m hap
      refine ⟨c, m, ?_, ?_, hc2, ?_⟩
      · rw [hr]; exact applyAndStatus_error_some s _ m hap
      · rw [hr, applyAndStatus_applied]; exact hc1
      · rw [hr, applyAndStatus_applied]; exact hc3

theorem apply_order_stop_at_first_error_witness :
    ∃ cfg : ManagerConfiguration,
      (reconcileRender rEx sOK "TigeraSecureEnterprise" installEx (some secEx) true none []
        "escfg" [secEx] secEx none none none none none "basic" (some secEx) (some secEx)).applied
        <+: desiredComponents (some secEx) true cfg := by
  obtain ⟨cfg, h1, h2, h3⟩ :=
    apply_order_stop_at_first_error rEx sOK "TigeraSecureEnterprise" installEx (some secEx) true
      none [] "escfg" [secEx] secEx none none none none none "basic" (some secEx) (some secEx)
      rfl rfl
  exact ⟨cfg, h2⟩

/-- C6: when certificate delegation is disabled (`CertificateManagement`
nil) and no TLS secret exists, the certificate phase threads the synthesized
secret onward, and that secret's certificate is self-signed with SAN list
exactly the service DNS names derived from the manager service name,
namespace and configured cluster domain plus the literal `localhost`, and
with validity exactly 825 × 24 hours (in seconds) from synthesis time.
`ensureCertificateSecret` and `getServiceDNSNames` are modelled from the
spec because `utils.EnsureCertificateSecret` and `dns.GetServiceDNSNames`
are not under `src/`. -/
theorem synthesized_cert_sans_validity (r : ReconcileManager) (s : ClusterState)
    (lic : License) (v : String) (ins : Installation)
    (hcm : ins.certificateManagement = none) (herr : s.ensureCertErr = none) :
    reconcileCert r s lic v ins none =
      reconcileDeps r s lic v ins
        (some (ensureCertificateSecret none managerCertDur (managerSvcDNSNames r.clusterDomain) s.now).1)
        (ensureCertificateSecret none managerCertDur (managerSvcDNSNames r.clusterDomain) s.now).2 ∧
    (ensureCertificateSecret none managerCertDur (managerSvcDNSNames r.clusterDomain) s.now).1.cert.sans =
      getServiceDNSNames ManagerServiceName ManagerNamespace r.clusterDomain ++ ["localhost"] ∧
    (ensureCertificateSecret none managerCertDur (managerSvcDNSNames r.clusterDomain) s.now).1.cert.notBefore
      = s.now ∧
    (ensureCertificateSecret none managerCertDur (managerSvcDNSNames r.clusterDomain) s.now).1.cert.notAfter
      = s.now + 825 * 24 * 3600 ∧
    (ensureCertificateSecret none managerCertDur (managerSvcDNSNames r.clusterDomain) s.now).1.cert.selfSigned
      = true ∧
    (ensureCertificateSecret none managerCertDur (managerSvcDNSNames r.clusterDomain) s.now).2 = true := by
  refine ⟨?_, rfl, rfl, rfl, rfl, rfl⟩
  unfold reconcileCert
  rw [hcm]
  dsimp only
  rw [herr]

theorem synthesized_cert_sans_validity_witness :
    (ensureCertificateSecret none managerCertDur (managerSvcDNSNames rEx.clusterDomain) sOK.now).1.cert.sans =
      getServiceDNSNames ManagerServiceName ManagerNamespace rEx.clusterDomain ++ ["localhost"] ∧
    (ensureCertificateSecret none managerCertDur (managerSvcDNSNames rEx.clusterDomain) sOK.now).1.cert.notAfter =
      sOK.now + 825 * 24 * 3600 := by
  have h := synthesized_cert_sans_validity rEx sOK licenseEx "TigeraSecureEnterprise" installEx rfl rfl
  exact ⟨h.2.1, h.2.2.2.1⟩

/-- C7: every rendered configuration the final phase hands to the apply
engine carries replica count exactly 1 whenever the hub topology resource
(ManagementCluster) or the spoke topology resource
(ManagementClusterConnection) is present, regardless of the installation's
configured control-plane replica count; when neither is present it equals
the installation's configured value. -/
theorem replicas_forced_one_for_topology (r : ReconcileManager) (s : ClusterState)
    (v : String) (ins : Installation) (ts : Option Secret) (om : Bool)
    (ccs : Option Secret) (ps : List Secret) (esc : ESClusterConfig)
    (ess : List Secret) (kib : Secret) (mc : Option ManagementCluster)
    (mcc : Option ManagementClusterConnection) (tun itr : Option Secret)
    (kvc : Option KeyValidatorConfig) (elt : String) (pcc prc : Option Secret)
    (cfg : ManagerConfiguration)
    (h : Component.rendered cfg ∈
      (reconcileRender r s v ins ts om ccs ps esc ess kib mc mcc tun itr kvc elt pcc prc).applied) :
    cfg.replicas = if mc.isSome || mcc.isSome then some 1 else ins.controlPlaneReplicas := by
  have hmain : cfg = buildManagerCfg r ins ts ccs ps esc ess kib mc mcc tun itr kvc elt pcc prc := by
    cases hre : s.renderManagerErr with
    | some m =>
      unfold reconcileRender at h
      rw [hre] at h
      simp [degradedStop] at h
    | none =>
      cases him : s.applyImageSetErr with
      | some m =>
        unfold reconcileRender at h
        rw [hre] at h
        dsimp only at h
        rw [him] at h
        simp [degradedStop] at h
      | none =>
        unfold reconcileRender at h
        rw [hre] at h
        dsimp only at h
        rw [him] at h
        dsimp only at h
        rw [applyAndStatus_applied] at h
        have hsub := (applyComponents_isPrefix s.applyErr
          (desiredComponents ts om
            (buildManagerCfg r ins ts ccs ps esc ess kib mc mcc tun itr kvc elt pcc prc))).sublist.subset h
        exact mem_desiredComponents_rendered ts om cfg _ hsub
  rw [hmain]
  simp [buildManagerCfg]

theorem replicas_forced_one_for_topology_witness :
    (buildManagerCfg rEx installEx (some secEx) none [] "escfg" [secEx] secEx (some mcEx) none
      none none none "basic" (some secEx) (some secEx)).replicas = some 1 := by
  have h := replicas_forced_one_for_topology rEx sOK "TigeraSecureEnterprise" installEx
    (some secEx) true none [] "escfg" [secEx] secEx (some mcEx) none none none none "basic"
    (some secEx) (some secEx)
    (buildManagerCfg rEx installEx (some secEx) none [] "escfg" [secEx] secEx (some mcEx) none
      none none none "basic" (some secEx) (some secEx)) (by decide)
  simpa using h

/-- C8: when certificate management is delegated externally
(`CertificateManagement` non-nil) and a TLS secret exists, the pass fails —
Degraded reason "Invalid certificate configuration", the user-provided-secret
error returned — whenever the attribution check succeeds and reports the
secret's certificate not operator issued; a user-provided certificate is
never accepted in delegation mode. -/
theorem delegation_user_cert_rejected (r : ReconcileManager) (s : ClusterState)
    (inst : ManagerCR) (lic : License) (v : String) (ins : Installation) (cm : String)
    (ts : Secret)
    (h1 : GetManager s = GetResult.ok inst)
    (h2 : s.apiServerReady = true) (h3 : s.licenseAPIReady = true)
    (h4 : s.fetchLicenseKey = GetResult.ok lic)
    (h5 : s.getInstallation = GetResult.ok (v, ins))
    (h6 : ins.certificateManagement = some cm)
    (h7 : s.validateManagerCertPair = Except.ok (some ts))
    (h8 : s.isCertOperatorIssuedErr = none)
    (h9 : ts.cert.operatorIssued = false) :
    Reconcile r s =
      degradedStop "Invalid certificate configuration" userProvidedMsg 0 (some userProvidedMsg) := by
  unfold Reconcile
  rw [h1]
  dsimp only
  simp only [h2, h3, Bool.not_true, Bool.false_eq_true, if_false]
  rw [h4]
  dsimp only
  rw [h5]
  dsimp only
  rw [h7]
  dsimp only
  unfold reconcileCert
  rw [h6]
  dsimp only
  rw [h8]
  dsimp only
  simp [h9]

theorem delegation_user_cert_rejected_witness :
    Reconcile rEx sC8 =
      degradedStop "Invalid certificate configuration" userProvidedMsg 0 (some userProvidedMsg) :=
  delegation_user_cert_rejected rEx sC8 mgrEx licenseEx "TigeraSecureEnterprise" installCM "cm"
    secUser rfl rfl rfl rfl rfl rfl rfl rfl rfl

/-- C9: whenever the one-shot license-API-ready flag is unset (in a pass
that found the Manager resource and a ready API server), the pass sets
Degraded with reason "Waiting for LicenseKeyAPI to be ready", returns no
error, and requests an explicit re-check after exactly 10 seconds. -/
theorem licenseAPI_not_ready_wait (r : ReconcileManager) (s : ClusterState)
    (inst : ManagerCR) (h1 : GetManager s = GetResult.ok inst)
    (h2 : s.apiServerReady = true) (h3 : s.licenseAPIReady = false) :
    Reconcile r s = degradedStop "Waiting for LicenseKeyAPI to be ready" "" 10 none := by
  unfold Reconcile
  rw [h1]
  simp [h2, h3]

theorem licenseAPI_not_ready_wait_witness :
    Reconcile rEx { sOK with licenseAPIReady := false } =
      degradedStop "Waiting for LicenseKeyAPI to be ready" "" 10 none :=
  licenseAPI_not_ready_wait rEx { sOK with licenseAPIReady := false } mgrEx rfl rfl rfl

/-- C10: `GetManager` succeeds exactly when the underlying fetch succeeds
and any present auth config has type `Token`; in particular an absent
(`nil`) `Spec.Auth` is accepted — the auth-mode gate rejects only a present
auth config whose type differs from `Token`. -/
theorem nil_auth_supported (s : ClusterState) (inst : ManagerCR)
    (h1 : s.getManager = GetResult.ok inst) :
    GetManager s = GetResult.ok inst ↔
      (∀ a, inst.auth = some a → a.authType = AuthTypeToken) := by
  unfold GetManager
  rw [h1]
  dsimp only
  cases hauth : inst.auth with
  | none => simp
  | some a =>
    dsimp only
    by_cases h : a.authType = AuthTypeToken
    · rw [if_pos h]; simp [h]
    · rw [if_neg h]; simp [h]

theorem nil_auth_supported_witness :
    GetManager sOK = GetResult.ok mgrEx :=
  (nil_auth_supported sOK mgrEx rfl).mpr (fun a ha => by simp [mgrEx] at ha)
